import Mathlib

/-!
# Verification of `REL/profiler.py` (`Profiler`)

Shallow embedding of the profiler in `src/REL/profiler.py`.

Modelling conventions:
* `time.monotonic()` readings are rationals (`ℚ`); every operation that reads
  the clock takes the current reading as an explicit argument.
* Python `dict` / `collections.defaultdict` (both insertion-ordered) are
  association lists `List (String × α)`; lookup finds the first binding,
  insertion of a fresh key appends at the end, updating an existing key keeps
  its position.  This matches CPython's insertion-order semantics.
* `ValueError` raised by `start` is modelled as `ProfilerError.DuplicateActionStart`,
  the one raised by `stop` as `ProfilerError.UnknownActionStop` (the code
  distinguishes them only by message text).
* Python's `stop` has no `return` statement, so it returns `None`; the model
  makes that explicit by returning `(newState, (none : Option ℚ))`.
* Decimal float formatting (`f"{x:.5}"` etc.) is abstracted to the exact
  rational rendering `toString : ℚ → String`; `os.linesep` is `"\n"` (POSIX).
  The `self._report` cache written by `summary` exists only for unit tests and
  is not part of the modelled state.
-/

/-- First-match lookup in an association list (Python `d[k]` / `k in d`). -/
def lookupA {α : Type} : List (String × α) → String → Option α
  | [], _ => none
  | (k, v) :: t, key => if k = key then some v else lookupA t key

/-- Remove the binding for a key (Python `d.pop(k)` on the entry side);
removes the first match, other entries keep their order. -/
def eraseA {α : Type} : List (String × α) → String → List (String × α)
  | [], _ => []
  | (k, v) :: t, key => if k = key then t else (k, v) :: eraseA t key

/-- `defaultdict` accumulation `d[k] += v`: if the key is present, add in
place (keeping its position); otherwise append `(k, 0 + v)` at the end. -/
def bumpA {α : Type} [Zero α] [Add α] : List (String × α) → String → α → List (String × α)
  | [], key, v => [(key, 0 + v)]
  | (k, w) :: t, key, v =>
    if k = key then (k, w + v) :: t else (k, w) :: bumpA t key v

/-- The two `ValueError`s raised by the profiler, told apart by their message. -/
inductive ProfilerError : Type where
  | DuplicateActionStart (name : String)
  | UnknownActionStop (name : String)
deriving Repr, DecidableEq

/-- State of `Profiler` (`src/REL/profiler.py`, `__init__`). -/
structure Profiler : Type where
  current_actions : List (String × ℚ)
  recorded_durations_sum : List (String × ℚ)
  recorded_instance_counts : List (String × ℕ)
  start_time : ℚ
deriving Repr, DecidableEq

namespace Profiler

/-- `Profiler.__init__`: empty tables, `start_time = time.monotonic()`. -/
def init (now : ℚ) : Profiler :=
  { current_actions := []
    recorded_durations_sum := []
    recorded_instance_counts := []
    start_time := now }

/-- `Profiler.set_global_start_time`. -/
def set_global_start_time (p : Profiler) (now : ℚ) : Profiler :=
  { p with start_time := now }

/-- `Profiler.start`: duplicate start raises before any mutation. -/
def start (p : Profiler) (now : ℚ) (name : String) : Except ProfilerError Profiler :=
  if (lookupA p.current_actions name).isSome then
    .error (.DuplicateActionStart name)
  else
    .ok { p with current_actions := p.current_actions ++ [(name, now)] }

/-- `Profiler.stop`: reads the clock, checks the action is active, pops its
start time, accumulates duration and count.  The Python function has no
`return` statement, hence the `(none : Option ℚ)` result component. -/
def stop (p : Profiler) (now : ℚ) (name : String) :
    Except ProfilerError (Profiler × Option ℚ) :=
  let end_time := now
  match lookupA p.current_actions name with
  | none => .error (.UnknownActionStop name)
  | some start_time =>
    let duration := end_time - start_time
    .ok ({ p with
            current_actions := eraseA p.current_actions name
            recorded_durations_sum := bumpA p.recorded_durations_sum name duration
            recorded_instance_counts := bumpA p.recorded_instance_counts name 1 },
         none)

/-- Recorded instance count of a name (`recorded_instance_counts[name]`,
`0` when absent, matching the `defaultdict(int)` default). -/
def countOf (p : Profiler) (name : String) : ℕ :=
  (lookupA p.recorded_instance_counts name).getD 0

/-- Recorded duration sum of a name (`recorded_durations_sum[name]`,
`0` when absent, matching the `defaultdict(float)` default). -/
def sumOf (p : Profiler) (name : String) : ℚ :=
  (lookupA p.recorded_durations_sum name).getD 0

/-- Whether a name has an active timer (`name in self.current_actions`). -/
def isActive (p : Profiler) (name : String) : Bool :=
  (lookupA p.current_actions name).isSome

end Profiler

namespace Profiler

/-- How control leaves the `with profiler.profile(name):` block. -/
inductive ProfileOutcome : Type where
  /-- The guarded body completed and no profiler error occurred. -/
  | normal
  /-- The guarded body raised; its exception propagates (after the
  `finally` clause ran). -/
  | bodyException
  /-- A `ValueError` from `start` or `stop` propagates. -/
  | profilerError (e : ProfilerError)
deriving Repr, DecidableEq

/-- `Profiler.profile` (the `@contextlib.contextmanager` generator) run around
a body that touches no profiler state and either returns normally or raises
(`bodyRaises`).  `t1` is the clock at `start`, `t2` the clock at the
`finally` `stop`.  Control flow of the generator:

```
try:
    self.start(action_name)   # may raise; then finally still runs
    yield action_name          # body runs here; may raise
finally:
    self.stop(action_name)     # always runs; its error would replace
```
-/
def profileRun (p : Profiler) (name : String) (t1 t2 : ℚ) (bodyRaises : Bool) :
    Profiler × ProfileOutcome :=
  match p.start t1 name with
  | .error e =>
    -- `start` raised before the `yield`; the `finally` clause still runs
    -- `stop` on the unmodified state, then the `start` error propagates
    -- (unless `stop` itself raises, which would replace it).
    match p.stop t2 name with
    | .ok (p', _) => (p', .profilerError e)
    | .error e' => (p, .profilerError e')
  | .ok p1 =>
    match p1.stop t2 name with
    | .ok (p2, _) => (p2, if bodyRaises then .bodyException else .normal)
    | .error e' => (p1, .profilerError e')

/-- One row of `_make_report`'s list:
`[action, r_sum, self.recorded_instance_counts[action], 100.0 * r_sum / total_duration]`. -/
structure ReportRow : Type where
  action : String
  durationSum : ℚ
  instanceCount : ℕ
  percentage : ℚ
deriving Repr, DecidableEq

/-- The comparison realised by `report.sort(key=lambda x: x[3], reverse=True)`:
a stable sort that is descending in the percentage field. -/
def rowLE (a b : ReportRow) : Bool :=
  decide (b.percentage ≤ a.percentage)

/-- The list comprehension inside `_make_report`, before sorting: one row per
entry of `recorded_durations_sum`, in that dict's (insertion) order.  The
`recorded_instance_counts[action]` read always finds a key (both dicts gain
their keys together in `stop`); `getD 0` is the `defaultdict(int)` default. -/
def reportRows (p : Profiler) (total_duration : ℚ) : List ReportRow :=
  p.recorded_durations_sum.map fun kv =>
    { action := kv.1
      durationSum := kv.2
      instanceCount := (lookupA p.recorded_instance_counts kv.1).getD 0
      percentage := 100 * kv.2 / total_duration }

/-- `Profiler._make_report`: build the rows, stably sort them descending by
percentage (CPython's `list.sort` is stable, also with `reverse=True`),
return them with `total_duration`. -/
def make_report (p : Profiler) (now : ℚ) : List ReportRow × ℚ :=
  let total_duration := now - p.start_time
  let report := reportRows p total_duration
  (report.mergeSort rowLE, total_duration)

/-- `os.linesep` on the POSIX platforms the repository targets. -/
def linesep : String := "\n"

/-- Left-justify to a given width: Python `f"{s:<{n}s}"`. -/
def padTo (s : String) (n : ℕ) : String :=
  s ++ String.mk (List.replicate (n - s.length) ' ')

/-- The nested `log_row` helper of `summary` (all call sites pass strings). -/
def log_row (max_key : ℕ) (action mean num_calls total per : String) : String :=
  linesep ++ padTo action max_key ++ "\t|  " ++ padTo mean 15 ++ "\t|" ++
    padTo num_calls 15 ++ "\t|  " ++ padTo total 15 ++ "\t|  " ++ padTo per 15 ++ "\t|"

/-- `Profiler.summary`.  Numbers are rendered by `toString : ℚ → String` in
place of Python's decimal float formatting; everything else (guard on an
empty `recorded_durations_sum`, the `np.max` key width, header, separators
sized to the text length so far, "Total" row, one row per report entry in
report order) follows the code. -/
def summary (p : Profiler) (now : ℚ) : String :=
  let sep := linesep
  let output0 := "" ++ ("Profiler Report" ++ sep)
  let output1 :=
    if p.recorded_durations_sum.length > 0 then
      let max_key := (p.recorded_durations_sum.map fun kv => kv.1.length).foldl Nat.max 0
      let withHeader := output0 ++
        log_row max_key "Action" "Mean duration (s)" "Num calls" "Total time (s)" "Percentage %"
      let output_string_len := withHeader.length
      let s1 := withHeader ++ (sep ++ String.mk (List.replicate output_string_len '-'))
      let rt := p.make_report now
      let s2 := s1 ++ log_row max_key "Total" "-" "_" (toString rt.2) "100 %"
      let s3 := s2 ++ (sep ++ String.mk (List.replicate output_string_len '-'))
      s3 ++ String.join (rt.1.map fun r =>
        log_row max_key r.action (toString (r.durationSum / (r.instanceCount : ℚ)))
          (toString r.instanceCount) (toString r.durationSum) (toString r.percentage ++ " %"))
    else output0
  output1 ++ sep

/-- `N` `start`/`stop` cycles on one name: `cycles` lists the
`(start-clock, stop-clock)` reading of each cycle in order; an error from
`start` or `stop` propagates and aborts the run. -/
def runCycles (name : String) : Profiler → List (ℚ × ℚ) → Except ProfilerError Profiler
  | p, [] => .ok p
  | p, c :: rest =>
    match p.start c.1 name with
    | .error e => .error e
    | .ok p1 =>
      match p1.stop c.2 name with
      | .error e => .error e
      | .ok pr => runCycles name pr.1 rest

end Profiler

/-- `needle` is an initial segment of `hay` (executable). -/
def leadsList : List Char → List Char → Bool
  | [], _ => true
  | _ :: _, [] => false
  | a :: as, b :: bs => a = b && leadsList as bs

/-- `needle` occurs as a contiguous run somewhere in `hay` (executable);
used to state "the report string contains / does not contain this text". -/
def occursIn (needle : List Char) : List Char → Bool
  | [] => leadsList needle []
  | c :: t => leadsList needle (c :: t) || occursIn needle t

/-! ## Association-list lemmas -/

theorem lookupA_eq_none_of_not_mem {α : Type} {l : List (String × α)} {k : String}
    (h : k ∉ l.map Prod.fst) : lookupA l k = none := by
  induction l with
  | nil => rfl
  | cons hd t ih =>
    obtain ⟨k', v'⟩ := hd
    simp only [List.map_cons, List.mem_cons] at h
    push_neg at h
    simp only [lookupA, if_neg (Ne.symm h.1)]
    exact ih h.2

theorem lookupA_append_self {α : Type} {l : List (String × α)} {k : String} (v : α)
    (h : lookupA l k = none) : lookupA (l ++ [(k, v)]) k = some v := by
  induction l with
  | nil => simp [lookupA]
  | cons hd t ih =>
    obtain ⟨k', v'⟩ := hd
    by_cases hk : k' = k
    · simp [lookupA, hk] at h
    · simp only [lookupA, if_neg hk] at h
      have : ((k', v') :: t) ++ [(k, v)] = (k', v') :: (t ++ [(k, v)]) := rfl
      rw [this]
      simp only [lookupA, if_neg hk]
      exact ih h

theorem eraseA_append_self {α : Type} {l : List (String × α)} {k : String} (v : α)
    (h : lookupA l k = none) : eraseA (l ++ [(k, v)]) k = l := by
  induction l with
  | nil => simp [eraseA]
  | cons hd t ih =>
    obtain ⟨k', v'⟩ := hd
    by_cases hk : k' = k
    · simp [lookupA, hk] at h
    · simp only [lookupA, if_neg hk] at h
      have : ((k', v') :: t) ++ [(k, v)] = (k', v') :: (t ++ [(k, v)]) := rfl
      rw [this]
      simp only [eraseA, if_neg hk]
      rw [ih h]

theorem lookupA_eraseA_self {α : Type} {l : List (String × α)} {k : String}
    (h : (l.map Prod.fst).Nodup) : lookupA (eraseA l k) k = none := by
  induction l with
  | nil => rfl
  | cons hd t ih =>
    obtain ⟨k', v'⟩ := hd
    simp only [List.map_cons, List.nodup_cons] at h
    by_cases hk : k' = k
    · simp only [eraseA, if_pos hk]
      exact lookupA_eq_none_of_not_mem (hk ▸ h.1)
    · simp only [eraseA, if_neg hk, lookupA, if_neg hk]
      exact ih h.2

theorem lookupA_bumpA_self {α : Type} [Zero α] [Add α]
    (l : List (String × α)) (k : String) (v : α) :
    lookupA (bumpA l k v) k = some ((lookupA l k).getD 0 + v) := by
  induction l with
  | nil => simp [bumpA, lookupA]
  | cons hd t ih =>
    obtain ⟨k', v'⟩ := hd
    by_cases hk : k' = k
    · simp [bumpA, lookupA, hk]
    · simp only [bumpA, if_neg hk, lookupA, ih]

/-! ## Basic `start`/`stop` behaviour -/

namespace Profiler

theorem start_ok {p : Profiler} {now : ℚ} {name : String}
    (h : p.isActive name = false) :
    p.start now name =
      .ok { p with current_actions := p.current_actions ++ [(name, now)] } := by
  unfold isActive at h
  unfold start
  rw [h]
  rfl

theorem stop_ok {p : Profiler} {now st : ℚ} {name : String}
    (h : lookupA p.current_actions name = some st) :
    p.stop now name =
      .ok ({ p with
              current_actions := eraseA p.current_actions name
              recorded_durations_sum := bumpA p.recorded_durations_sum name (now - st)
              recorded_instance_counts := bumpA p.recorded_instance_counts name 1 },
           none) := by
  unfold stop
  rw [h]

theorem isActive_of_lookupA {p : Profiler} {name : String}
    (h : (lookupA p.current_actions name).isSome) : p.isActive name = true := by
  unfold isActive
  exact h

theorem lookupA_of_not_isActive {p : Profiler} {name : String}
    (h : p.isActive name = false) : lookupA p.current_actions name = none := by
  unfold isActive at h
  exact Option.not_isSome_iff_eq_none.mp (by simp [h])

end Profiler

/-! ## Stable-sort lemmas -/

/-- A stable sort leaves the relative order of tied elements unchanged:
filtering the sorted list by a predicate all of whose elements compare `le`
in both directions gives exactly the filtered input. -/
theorem filter_mergeSort_eq {α : Type} (le : α → α → Bool)
    (htrans : ∀ a b c, le a b = true → le b c = true → le a c = true)
    (htotal : ∀ a b, (le a b || le b a) = true)
    (pr : α → Bool) (hp : ∀ a b, pr a = true → pr b = true → le a b = true)
    (l : List α) : (l.mergeSort le).filter pr = l.filter pr := by
  have hsub : (l.filter pr).Sublist l := List.filter_sublist l
  have hpw : (l.filter pr).Pairwise fun a b => le a b = true :=
    List.pairwise_of_forall_mem_list fun a ha b hb =>
      hp a b (List.of_mem_filter ha) (List.of_mem_filter hb)
  have h1 : (l.filter pr).Sublist (l.mergeSort le) :=
    List.sublist_mergeSort htrans htotal hpw hsub
  have h2 : ((l.filter pr).filter pr).Sublist ((l.mergeSort le).filter pr) :=
    h1.filter pr
  rw [List.filter_filter] at h2
  have h2' : (l.filter pr).Sublist ((l.mergeSort le).filter pr) := by
    simpa using h2
  have hperm : ((l.mergeSort le).filter pr).Perm (l.filter pr) :=
    (List.mergeSort_perm l le).filter pr
  exact (h2'.eq_of_length hperm.length_eq.symm).symm

namespace Profiler

theorem rowLE_trans (a b c : ReportRow) (hab : rowLE a b = true)
    (hbc : rowLE b c = true) : rowLE a c = true := by
  unfold rowLE at *
  exact decide_eq_true_eq.mpr
    (le_trans (decide_eq_true_eq.mp hbc) (decide_eq_true_eq.mp hab))

theorem rowLE_total (a b : ReportRow) : (rowLE a b || rowLE b a) = true := by
  unfold rowLE
  rcases le_total a.percentage b.percentage with h | h <;> simp [h]

theorem percentage_of_mem_reportRows {p : Profiler} {td : ℚ} {r : ReportRow}
    (h : r ∈ reportRows p td) : r.percentage = 100 * r.durationSum / td := by
  unfold reportRows at h
  obtain ⟨kv, _, rfl⟩ := List.mem_map.mp h
  rfl

end Profiler

namespace Profiler

theorem start_eq_ok {p q : Profiler} {now : ℚ} {name : String}
    (h : p.start now name = .ok q) :
    lookupA p.current_actions name = none ∧
    q = { p with current_actions := p.current_actions ++ [(name, now)] } := by
  unfold start at h
  cases hl : lookupA p.current_actions name with
  | none => rw [hl] at h; simp at h; exact ⟨rfl, h.symm⟩
  | some v => rw [hl] at h; simp at h

end Profiler

/-! ## Claims -/

/-- C1 (amended): for every name with an active timer, `stop(name)` computes
`elapsed = now − recorded_start`, removes the active entry, adds `elapsed` to
the name's recorded duration sum, increments its instance count — and returns
`None`, not `elapsed` (the Python function has no `return` statement).
The `Nodup` hypothesis is the Python-dict invariant that a key is bound at
most once. -/
theorem C1_stop_effects (p : Profiler) (now st : ℚ) (name : String)
    (hactive : lookupA p.current_actions name = some st)
    (hnodup : (p.current_actions.map Prod.fst).Nodup) :
    ∃ p' : Profiler,
      p.stop now name = .ok (p', (none : Option ℚ)) ∧
      p'.isActive name = false ∧
      p'.sumOf name = p.sumOf name + (now - st) ∧
      p'.countOf name = p.countOf name + 1 := by
  refine ⟨{ p with
      current_actions := eraseA p.current_actions name
      recorded_durations_sum := bumpA p.recorded_durations_sum name (now - st)
      recorded_instance_counts := bumpA p.recorded_instance_counts name 1 },
    Profiler.stop_ok hactive, ?_, ?_, ?_⟩
  · simp [Profiler.isActive, lookupA_eraseA_self hnodup]
  · simp [Profiler.sumOf, lookupA_bumpA_self]
  · simp [Profiler.countOf, lookupA_bumpA_self]

/-- C1 counterexample: with `"load"` started at clock `0` and stopped at
clock `5`, `stop` performs its bookkeeping but its returned value is `None`
(`none`), not the elapsed `5.0` the claim promises. -/
theorem C1_counterexample :
    (Profiler.mk [("load", 0)] [] [] 0).stop 5 "load" =
      .ok (Profiler.mk [] [("load", 5)] [("load", 1)] 0, (none : Option ℚ)) ∧
    (none : Option ℚ) ≠ some 5 := by
  constructor
  · simp [Profiler.stop, lookupA, bumpA, eraseA]
  · simp

/-- C1 witness: the amended C1 instantiated at a concrete session. -/
theorem C1_witness :
    lookupA (Profiler.mk [("load", 2)] [] [] 0).current_actions "load" = some 2 ∧
    ((Profiler.mk [("load", 2)] [] [] 0).current_actions.map Prod.fst).Nodup ∧
    (∃ p' : Profiler,
      (Profiler.mk [("load", 2)] [] [] 0).stop 5 "load" = .ok (p', (none : Option ℚ)) ∧
      p'.isActive "load" = false ∧
      p'.sumOf "load" = (Profiler.mk [("load", 2)] [] [] 0).sumOf "load" + (5 - 2) ∧
      p'.countOf "load" = (Profiler.mk [("load", 2)] [] [] 0).countOf "load" + 1) :=
  ⟨by decide, by decide,
    C1_stop_effects (Profiler.mk [("load", 2)] [] [] 0) 5 2 "load" (by decide) (by decide)⟩

/-- C2 (amended): `summary()` on a session with zero completed actions does
not raise and returns exactly `"Profiler Report" ++ sep ++ sep`: it contains
the header and no per-action rows, but — contrary to the claim — no "Total"
row either, because the entire table (header row, separators, Total row, and
action rows) sits inside the `if len(self.recorded_durations_sum) > 0`
guard. -/
theorem C2_summary_empty (p : Profiler) (now : ℚ)
    (h : p.recorded_durations_sum = []) :
    p.summary now = "Profiler Report" ++ Profiler.linesep ++ Profiler.linesep ∧
    occursIn "Profiler Report".data (p.summary now).data = true ∧
    occursIn "Total".data (p.summary now).data = false := by
  have h1 : p.summary now = "Profiler Report" ++ Profiler.linesep ++ Profiler.linesep := by
    unfold Profiler.summary
    rw [h]
    rfl
  refine ⟨h1, ?_, ?_⟩ <;> rw [h1] <;> decide

/-- C2 counterexample: on a fresh session the summary string is
`"Profiler Report\n\n"`, which does not contain the text `"Total"` — the
claimed "Total" row is absent. -/
theorem C2_counterexample :
    (Profiler.init 0).summary 3 = "Profiler Report" ++ "\n" ++ "\n" ∧
    occursIn "Total".data ((Profiler.init 0).summary 3).data = false := by
  constructor
  · rfl
  · decide

/-- C2 witness: the amended C2 instantiated at a fresh session. -/
theorem C2_witness :
    (Profiler.init 0).recorded_durations_sum = [] ∧
    ((Profiler.init 0).summary 3 = "Profiler Report" ++ Profiler.linesep ++ Profiler.linesep ∧
     occursIn "Profiler Report".data ((Profiler.init 0).summary 3).data = true ∧
     occursIn "Total".data ((Profiler.init 0).summary 3).data = false) :=
  ⟨rfl, C2_summary_empty (Profiler.init 0) 3 rfl⟩

/-- C3: when `total_duration` is positive, the rows of `_make_report` are in
non-increasing percentage order, equivalently non-increasing duration-sum
order; rows with equal percentage keep the relative order of the pre-sort
row list, whose order is that of `recorded_durations_sum` — the
completion-order sequence in which each action's aggregate record was first
created (fresh keys are appended at the end, existing keys keep their
position). -/
theorem C3_report_order (p : Profiler) (now : ℚ)
    (htd : 0 < now - p.start_time) :
    ((p.make_report now).1.Pairwise fun a b => b.percentage ≤ a.percentage) ∧
    ((p.make_report now).1.Pairwise fun a b => b.durationSum ≤ a.durationSum) ∧
    (∀ q : ℚ,
      (p.make_report now).1.filter (fun r => decide (r.percentage = q)) =
        (Profiler.reportRows p (now - p.start_time)).filter
          (fun r => decide (r.percentage = q))) ∧
    (Profiler.reportRows p (now - p.start_time)).map (fun r => r.action) =
      p.recorded_durations_sum.map Prod.fst := by
  have hmr : (p.make_report now).1 =
      (Profiler.reportRows p (now - p.start_time)).mergeSort Profiler.rowLE := rfl
  have hpw := List.sorted_mergeSort
    Profiler.rowLE_trans Profiler.rowLE_total (Profiler.reportRows p (now - p.start_time))
  have hperm := List.mergeSort_perm (Profiler.reportRows p (now - p.start_time)) Profiler.rowLE
  refine ⟨?_, ?_, ?_, ?_⟩
  · rw [hmr]
    exact hpw.imp fun hab => by
      exact decide_eq_true_eq.mp (by simpa [Profiler.rowLE] using hab)
  · rw [hmr]
    refine List.Pairwise.imp_of_mem ?_ hpw
    intro a b ha hb hab
    have ha' := Profiler.percentage_of_mem_reportRows (hperm.mem_iff.mp ha)
    have hb' := Profiler.percentage_of_mem_reportRows (hperm.mem_iff.mp hb)
    have hle : b.percentage ≤ a.percentage := by
      simpa [Profiler.rowLE] using hab
    rw [ha', hb'] at hle
    have h100 := (div_le_div_iff_of_pos_right htd).mp hle
    linarith
  · intro q
    rw [hmr]
    refine filter_mergeSort_eq Profiler.rowLE Profiler.rowLE_trans Profiler.rowLE_total
      (fun r => decide (r.percentage = q)) ?_ _
    intro a b hqa hqb
    have hqa' : a.percentage = q := of_decide_eq_true hqa
    have hqb' : b.percentage = q := of_decide_eq_true hqb
    simp [Profiler.rowLE, hqa', hqb']
  · simp [Profiler.reportRows]

/-- C3 witness: the ordering theorem instantiated at a session with a tie
(actions "b" and "c" both hold 20 percent). -/
theorem C3_witness :
    ((0 : ℚ) <
      10 - (Profiler.mk [] [("a", 1), ("b", 2), ("c", 2)] [("a", 1), ("b", 1), ("c", 2)] 0).start_time) ∧
    ((((Profiler.mk [] [("a", 1), ("b", 2), ("c", 2)] [("a", 1), ("b", 1), ("c", 2)] 0).make_report 10).1.Pairwise
        fun a b => b.percentage ≤ a.percentage) ∧
     (((Profiler.mk [] [("a", 1), ("b", 2), ("c", 2)] [("a", 1), ("b", 1), ("c", 2)] 0).make_report 10).1.Pairwise
        fun a b => b.durationSum ≤ a.durationSum) ∧
     (∀ q : ℚ,
       ((Profiler.mk [] [("a", 1), ("b", 2), ("c", 2)] [("a", 1), ("b", 1), ("c", 2)] 0).make_report 10).1.filter
           (fun r => decide (r.percentage = q)) =
         (Profiler.reportRows (Profiler.mk [] [("a", 1), ("b", 2), ("c", 2)] [("a", 1), ("b", 1), ("c", 2)] 0)
             (10 - (Profiler.mk [] [("a", 1), ("b", 2), ("c", 2)] [("a", 1), ("b", 1), ("c", 2)] 0).start_time)).filter
           (fun r => decide (r.percentage = q))) ∧
     (Profiler.reportRows (Profiler.mk [] [("a", 1), ("b", 2), ("c", 2)] [("a", 1), ("b", 1), ("c", 2)] 0)
         (10 - (Profiler.mk [] [("a", 1), ("b", 2), ("c", 2)] [("a", 1), ("b", 1), ("c", 2)] 0).start_time)).map
         (fun r => r.action) =
       (Profiler.mk [] [("a", 1), ("b", 2), ("c", 2)] [("a", 1), ("b", 1), ("c", 2)] 0).recorded_durations_sum.map
         Prod.fst) :=
  ⟨by norm_num,
    C3_report_order (Profiler.mk [] [("a", 1), ("b", 2), ("c", 2)] [("a", 1), ("b", 1), ("c", 2)] 0) 10
      (by norm_num)⟩

/-- C4: entering `profile(name)` while `name` is not active runs `stop(name)`
exactly once on every exit path: whether the body returns normally or raises,
afterwards the name is not active, its count went up by exactly one, its
duration sum by exactly `t2 − t1`, and a raising body's exception propagates
(`bodyException`). -/
theorem C4_profile_guard (p : Profiler) (name : String) (t1 t2 : ℚ) (bodyRaises : Bool)
    (hfree : p.isActive name = false) :
    ∃ p' : Profiler,
      p.profileRun name t1 t2 bodyRaises =
        (p', if bodyRaises then Profiler.ProfileOutcome.bodyException
             else Profiler.ProfileOutcome.normal) ∧
      p'.isActive name = false ∧
      p'.countOf name = p.countOf name + 1 ∧
      p'.sumOf name = p.sumOf name + (t2 - t1) := by
  have hl : lookupA p.current_actions name = none := Profiler.lookupA_of_not_isActive hfree
  have hstart := @Profiler.start_ok p t1 name hfree
  have hlook : lookupA (p.current_actions ++ [(name, t1)]) name = some t1 :=
    lookupA_append_self t1 hl
  have hstop := @Profiler.stop_ok
    { p with current_actions := p.current_actions ++ [(name, t1)] }
    t2 t1 name hlook
  rw [show eraseA (p.current_actions ++ [(name, t1)]) name = p.current_actions from
    eraseA_append_self t1 hl] at hstop
  refine ⟨{ p with
      recorded_durations_sum := bumpA p.recorded_durations_sum name (t2 - t1)
      recorded_instance_counts := bumpA p.recorded_instance_counts name 1 }, ?_, ?_, ?_, ?_⟩
  · unfold Profiler.profileRun
    simp only [hstart, hstop]
  · simpa [Profiler.isActive] using hfree
  · simp [Profiler.countOf, lookupA_bumpA_self]
  · simp [Profiler.sumOf, lookupA_bumpA_self]

/-- C4 witness: the scoped guard around a raising body, on a fresh session. -/
theorem C4_witness :
    (Profiler.init 0).isActive "work" = false ∧
    (∃ p' : Profiler,
      (Profiler.init 0).profileRun "work" 0 3 true =
        (p', if true then Profiler.ProfileOutcome.bodyException
             else Profiler.ProfileOutcome.normal) ∧
      p'.isActive "work" = false ∧
      p'.countOf "work" = (Profiler.init 0).countOf "work" + 1 ∧
      p'.sumOf "work" = (Profiler.init 0).sumOf "work" + (3 - 0)) :=
  ⟨by decide, C4_profile_guard (Profiler.init 0) "work" 0 3 true (by decide)⟩

/-- Helper for C5: from any state in which `name` has no active timer,
running a list of start/stop cycles succeeds, leaves `name` inactive, and
adds the number of cycles to its count and the sum of the per-cycle elapsed
times to its duration sum. -/
theorem runCycles_spec (name : String) (cycles : List (ℚ × ℚ)) :
    ∀ p : Profiler, p.isActive name = false →
      ∃ p' : Profiler, Profiler.runCycles name p cycles = .ok p' ∧
        p'.isActive name = false ∧
        p'.countOf name = p.countOf name + cycles.length ∧
        p'.sumOf name = p.sumOf name + (cycles.map fun c => c.2 - c.1).sum := by
  induction cycles with
  | nil => intro p h; exact ⟨p, rfl, h, by simp, by simp⟩
  | cons c rest ih =>
    intro p h
    have hl : lookupA p.current_actions name = none := Profiler.lookupA_of_not_isActive h
    have hstart := @Profiler.start_ok p c.1 name h
    have hlook : lookupA (p.current_actions ++ [(name, c.1)]) name = some c.1 :=
      lookupA_append_self c.1 hl
    have hstop := @Profiler.stop_ok
      { p with current_actions := p.current_actions ++ [(name, c.1)] }
      c.2 c.1 name hlook
    rw [show eraseA (p.current_actions ++ [(name, c.1)]) name = p.current_actions from
      eraseA_append_self c.1 hl] at hstop
    obtain ⟨p', h1, h2, h3, h4⟩ := ih
      { p with
        recorded_durations_sum := bumpA p.recorded_durations_sum name (c.2 - c.1)
        recorded_instance_counts := bumpA p.recorded_instance_counts name 1 }
      (by simpa [Profiler.isActive] using h)
    refine ⟨p', ?_, h2, ?_, ?_⟩
    · unfold Profiler.runCycles
      simp only [hstart, hstop]
      exact h1
    · rw [h3]
      simp [Profiler.countOf, lookupA_bumpA_self]
      omega
    · rw [h4]
      simp [Profiler.sumOf, lookupA_bumpA_self]
      ring

/-- C5: after `N` completed `start`/`stop` cycles on one name (and no other
operation on that name) from a fresh session, the recorded instance count of
the name is `N` and its recorded duration sum is the sum of the `N`
individual elapsed times. -/
theorem C5_cycles_accumulate (name : String) (t0 : ℚ) (cycles : List (ℚ × ℚ)) :
    ∃ p' : Profiler, Profiler.runCycles name (Profiler.init t0) cycles = .ok p' ∧
      p'.countOf name = cycles.length ∧
      p'.sumOf name = (cycles.map fun c => c.2 - c.1).sum := by
  obtain ⟨p', h1, _, h3, h4⟩ := runCycles_spec name cycles (Profiler.init t0) rfl
  refine ⟨p', h1, ?_, ?_⟩
  · simpa [Profiler.init, Profiler.countOf, lookupA] using h3
  · simpa [Profiler.init, Profiler.sumOf, lookupA] using h4

/-- C6: `start(name)` on a name that already has an active timer fails with
the duplicate-start error (the membership test precedes every assignment, so
the raising call performs no state mutation, which the `Except`-valued model
reflects by returning only the error); in particular a second `start` right
after a successful one fails this way. -/
theorem C6_duplicate_start (p : Profiler) (t2 : ℚ) (name : String)
    (h : p.isActive name = true) :
    p.start t2 name = .error (.DuplicateActionStart name) ∧
    ∀ (p0 p1 : Profiler) (t1 : ℚ), p0.start t1 name = .ok p1 →
      p1.start t2 name = .error (.DuplicateActionStart name) := by
  constructor
  · unfold Profiler.isActive at h
    unfold Profiler.start
    rw [h]
    rfl
  · intro p0 p1 t1 hs
    obtain ⟨hl, rfl⟩ := Profiler.start_eq_ok hs
    unfold Profiler.start
    have : lookupA (p0.current_actions ++ [(name, t1)]) name = some t1 :=
      lookupA_append_self t1 hl
    simp [this]

/-- C6 witness: duplicate start on a session with "load" active. -/
theorem C6_witness :
    (Profiler.mk [("load", 0)] [] [] 0).isActive "load" = true ∧
    ((Profiler.mk [("load", 0)] [] [] 0).start 1 "load" =
        .error (.DuplicateActionStart "load") ∧
      ∀ (p0 p1 : Profiler) (t1 : ℚ), p0.start t1 "load" = .ok p1 →
        p1.start 1 "load" = .error (.DuplicateActionStart "load")) :=
  ⟨by decide, C6_duplicate_start (Profiler.mk [("load", 0)] [] [] 0) 1 "load" (by decide)⟩

/-- C7: `stop(name)` on a name with no active timer fails with the
unknown-action error (the membership test precedes every mutation, so the
active-timer table and the aggregates are untouched, which the
`Except`-valued model reflects by returning only the error). -/
theorem C7_unknown_stop (p : Profiler) (now : ℚ) (name : String)
    (h : p.isActive name = false) :
    p.stop now name = .error (.UnknownActionStop name) := by
  have hl := Profiler.lookupA_of_not_isActive h
  unfold Profiler.stop
  rw [hl]

/-- C7 witness: `stop` on a fresh session with nothing started. -/
theorem C7_witness :
    (Profiler.init 0).isActive "load" = false ∧
    (Profiler.init 0).stop 1 "load" = .error (.UnknownActionStop "load") :=
  ⟨by decide, C7_unknown_stop (Profiler.init 0) 1 "load" (by decide)⟩

/-- C8: under a monotonic clock (`s ≤ e`), `start(name)` at `s` followed by
`stop(name)` at `e` succeeds, the recorded elapsed time `e − s` is
non-negative, and afterwards the name has no active timer. -/
theorem C8_start_stop_nonneg (p : Profiler) (s e : ℚ) (name : String)
    (hfree : p.isActive name = false) (hmono : s ≤ e) :
    ∃ p1 p2 : Profiler,
      p.start s name = .ok p1 ∧
      p1.stop e name = .ok (p2, (none : Option ℚ)) ∧
      0 ≤ e - s ∧
      p2.sumOf name = p.sumOf name + (e - s) ∧
      p2.isActive name = false := by
  have hl := Profiler.lookupA_of_not_isActive hfree
  refine ⟨_, _, Profiler.start_ok hfree, Profiler.stop_ok (lookupA_append_self s hl),
    ?_, ?_, ?_⟩
  · exact sub_nonneg.mpr hmono
  · simp [Profiler.sumOf, lookupA_bumpA_self]
  · simp [Profiler.isActive, eraseA_append_self s hl, hl]

/-- C8 witness: one cycle from clock 0 to clock 2 on a fresh session. -/
theorem C8_witness :
    (Profiler.init 0).isActive "load" = false ∧ ((0 : ℚ) ≤ 2) ∧
    (∃ p1 p2 : Profiler,
      (Profiler.init 0).start 0 "load" = .ok p1 ∧
      p1.stop 2 "load" = .ok (p2, (none : Option ℚ)) ∧
      (0 : ℚ) ≤ 2 - 0 ∧
      p2.sumOf "load" = (Profiler.init 0).sumOf "load" + (2 - 0) ∧
      p2.isActive "load" = false) :=
  ⟨by decide, by decide,
    C8_start_stop_nonneg (Profiler.init 0) 0 2 "load" (by decide) (by decide)⟩

/-- C9: `set_global_start_time` sets `start_time` to the given clock reading
and changes nothing else — active timers, duration sums and instance counts
are all untouched. -/
theorem C9_reset_start_time_frame (p : Profiler) (now : ℚ) :
    (p.set_global_start_time now).start_time = now ∧
    (p.set_global_start_time now).current_actions = p.current_actions ∧
    (p.set_global_start_time now).recorded_durations_sum = p.recorded_durations_sum ∧
    (p.set_global_start_time now).recorded_instance_counts = p.recorded_instance_counts :=
  ⟨rfl, rfl, rfl, rfl⟩

/-- C10: entering `profile(name)` while `name` already has an active timer
(started at `t0`) raises the duplicate-start error, but the `finally` clause
still runs `stop(name)` on the way out: the pre-existing timer is stopped,
so afterwards the name is not active and its count and duration sum have
been incremented once — the error path mutates aggregate state. -/
theorem C10_profile_duplicate_start_mutates (p : Profiler) (name : String)
    (t0 t1 t2 : ℚ) (b : Bool)
    (hactive : lookupA p.current_actions name = some t0)
    (hnodup : (p.current_actions.map Prod.fst).Nodup) :
    ∃ p' : Profiler,
      p.profileRun name t1 t2 b =
        (p', .profilerError (.DuplicateActionStart name)) ∧
      p'.isActive name = false ∧
      p'.countOf name = p.countOf name + 1 ∧
      p'.sumOf name = p.sumOf name + (t2 - t0) := by
  have hstart : p.start t1 name = .error (.DuplicateActionStart name) := by
    unfold Profiler.start
    rw [hactive]
    rfl
  have hstop := @Profiler.stop_ok p t2 t0 name hactive
  refine ⟨{ p with
      current_actions := eraseA p.current_actions name
      recorded_durations_sum := bumpA p.recorded_durations_sum name (t2 - t0)
      recorded_instance_counts := bumpA p.recorded_instance_counts name 1 }, ?_, ?_, ?_, ?_⟩
  · unfold Profiler.profileRun
    simp only [hstart, hstop]
  · simp [Profiler.isActive, lookupA_eraseA_self hnodup]
  · simp [Profiler.countOf, lookupA_bumpA_self]
  · simp [Profiler.sumOf, lookupA_bumpA_self]

/-- C10 witness: the guard entered while "x" is already active (started at
clock 1), with the `finally` `stop` at clock 3. -/
theorem C10_witness :
    lookupA (Profiler.mk [("x", 1)] [] [] 0).current_actions "x" = some 1 ∧
    ((Profiler.mk [("x", 1)] [] [] 0).current_actions.map Prod.fst).Nodup ∧
    (∃ p' : Profiler,
      (Profiler.mk [("x", 1)] [] [] 0).profileRun "x" 2 3 false =
        (p', .profilerError (.DuplicateActionStart "x")) ∧
      p'.isActive "x" = false ∧
      p'.countOf "x" = (Profiler.mk [("x", 1)] [] [] 0).countOf "x" + 1 ∧
      p'.sumOf "x" = (Profiler.mk [("x", 1)] [] [] 0).sumOf "x" + (3 - 1)) :=
  ⟨by decide, by decide,
    C10_profile_duplicate_start_mutates (Profiler.mk [("x", 1)] [] [] 0) "x" 1 2 3 false
      (by decide) (by decide)⟩
